import Mathlib

/-!
Verification development for the `openai-nim-proxy` service (`server.js`,
the OpenAI-to-NVIDIA-NIM proxy, plus the related Hugging Face variant in
`part_000`).  The JavaScript request handlers are shallowly embedded as
executable Lean functions; machine integers are modelled as `Int`, JSON
numbers are modelled as integers (no floating point appears in any
property under consideration), and the mutable Express response object is
modelled as explicit state (`StreamState`).
-/

set_option maxRecDepth 4096

namespace NimProxy

/-- JavaScript/JSON values, as produced by `JSON.parse`.  Object fields keep
insertion order, matching JavaScript object semantics.  Numbers are modelled
as integers; none of the verified properties involve fractional numbers. -/
inductive Json where
  | null
  | bool (b : Bool)
  | num (n : Int)
  | str (s : String)
  | arr (elems : List Json)
  | obj (fields : List (String × Json))

/-- JavaScript truthiness of a value. -/
def jsTruthy : Json → Bool
  | .null => false
  | .bool b => b
  | .num n => n != 0
  | .str s => s != ""
  | .arr _ => true
  | .obj _ => true

/-- JavaScript truthiness where `none` stands for `undefined`. -/
def jsTruthyOpt : Option Json → Bool
  | none => false
  | some v => jsTruthy v

/-- `Array.isArray` on an optional value (`none` = `undefined`). -/
def jsIsArrayOpt : Option Json → Bool
  | some (.arr _) => true
  | _ => false

/-- Field lookup in an ordered field list. -/
def lookupField (fields : List (String × Json)) (k : String) : Option Json :=
  match fields with
  | [] => none
  | (k', v) :: rest => if k' = k then some v else lookupField rest k

/-- JavaScript property access `v[k]`; yields `undefined` (`none`) on
non-objects, like property access on primitives without such a property. -/
def jsMember (v : Json) (k : String) : Option Json :=
  match v with
  | .obj fields => lookupField fields k
  | _ => none

/-- JavaScript element access `v[0]`: array head, string head, or the
`"0"` property of an object; `undefined` otherwise. -/
def jsIndex0 (v : Json) : Option Json :=
  match v with
  | .arr (x :: _) => some x
  | .arr [] => none
  | .str s => if s = "" then none else some (.str (String.mk [s.data.headD ' ']))
  | .obj fields => lookupField fields "0"
  | _ => none

/-- `x || dflt` where `none` is `undefined`. -/
def jsOr (v : Option Json) (dflt : Json) : Json :=
  match v with
  | some x => if jsTruthy x then x else dflt
  | none => dflt

/-- JavaScript whitespace, as far as the service's inputs are concerned. -/
def isWsChar (c : Char) : Bool :=
  c = ' ' || c = '\n' || c = '\t' || c = '\r'

/-- `String.prototype.trim` (restricted to the ASCII whitespace above). -/
def jsTrim (s : String) : String :=
  String.mk (((s.data.dropWhile isWsChar).reverse.dropWhile isWsChar).reverse)

/-- Is the pattern a prefix of the list? -/
def listStartsWith : List Char → List Char → Bool
  | [], _ => true
  | _ :: _, [] => false
  | p :: ps, c :: cs => p = c && listStartsWith ps cs

/-- Is the pattern an infix of the list? -/
def listHasInfix (pat : List Char) : List Char → Bool
  | [] => listStartsWith pat []
  | c :: cs => listStartsWith pat (c :: cs) || listHasInfix pat cs

/-- `String.prototype.includes`. -/
def strIncludes (s pat : String) : Bool :=
  listHasInfix pat.data s.data

/-- ASCII lower-casing, as `String.prototype.toLowerCase` on the inputs the
model-name heuristic sees. -/
def jsToLower (s : String) : String :=
  String.mk (s.data.map Char.toLower)

/-! ### JSON.parse

A recursive-descent parser for the JSON fragment the proxy handles, with a
fuel argument keeping the recursion structural.  Numbers are integers
(optional minus sign, digit run); strings support the common escapes. -/

/-- Skip leading whitespace. -/
def skipWs (cs : List Char) : List Char :=
  cs.dropWhile isWsChar

/-- Expect a literal character sequence, returning the remainder. -/
def expectLit : List Char → List Char → Option (List Char)
  | [], cs => some cs
  | _ :: _, [] => none
  | l :: ls, c :: cs => if l = c then expectLit ls cs else none

/-- Decode one escape character of a JSON string. -/
def unescapeChar (c : Char) : Option Char :=
  if c = '"' then some '"'
  else if c = '\\' then some '\\'
  else if c = '/' then some '/'
  else if c = 'n' then some '\n'
  else if c = 't' then some '\t'
  else if c = 'r' then some '\r'
  else if c = 'b' then some (Char.ofNat 8)
  else if c = 'f' then some (Char.ofNat 12)
  else none

/-- Parse the body of a JSON string (opening quote already consumed);
returns the contents and the remainder after the closing quote. -/
def parseStrChars : List Char → Option (List Char × List Char)
  | [] => none
  | '\\' :: rest =>
    match rest with
    | [] => none
    | e :: rest' =>
      match unescapeChar e with
      | none => none
      | some ec =>
        match parseStrChars rest' with
        | none => none
        | some (s, r) => some (ec :: s, r)
  | '"' :: rest => some ([], rest)
  | c :: rest =>
    match parseStrChars rest with
    | none => none
    | some (s, r) => some (c :: s, r)

/-- Parse a run of digits into a natural number. -/
def parseDigits (cs : List Char) : Option (Nat × List Char) :=
  let digits := cs.takeWhile Char.isDigit
  let rest := cs.dropWhile Char.isDigit
  if digits = [] then none
  else some (digits.foldl (fun acc c => acc * 10 + (c.toNat - '0'.toNat)) 0, rest)

/-- Parse a (integer) JSON number. -/
def parseNum (cs : List Char) : Option (Json × List Char) :=
  match cs with
  | '-' :: rest =>
    match parseDigits rest with
    | none => none
    | some (n, r) => some (.num (-(n : Int)), r)
  | _ =>
    match parseDigits cs with
    | none => none
    | some (n, r) => some (.num (n : Int), r)

mutual

/-- Parse one JSON value. -/
def parseVal : Nat → List Char → Option (Json × List Char)
  | 0, _ => none
  | fuel + 1, cs =>
    match skipWs cs with
    | [] => none
    | c :: rest =>
      if c = 'n' then
        match expectLit ['u', 'l', 'l'] rest with
        | some r => some (.null, r)
        | none => none
      else if c = 't' then
        match expectLit ['r', 'u', 'e'] rest with
        | some r => some (.bool true, r)
        | none => none
      else if c = 'f' then
        match expectLit ['a', 'l', 's', 'e'] rest with
        | some r => some (.bool false, r)
        | none => none
      else if c = '"' then
        match parseStrChars rest with
        | some (s, r) => some (.str (String.mk s), r)
        | none => none
      else if c = '-' || c.isDigit then
        parseNum (c :: rest)
      else if c = '[' then
        match skipWs rest with
        | ']' :: r => some (.arr [], r)
        | _ => match parseItems fuel rest with
               | some (vs, r) => some (.arr vs, r)
               | none => none
      else if c = '\x7b' then
        match skipWs rest with
        | '\x7d' :: r => some (.obj [], r)
        | _ => match parseFields fuel rest with
               | some (fs, r) => some (.obj fs, r)
               | none => none
      else none

/-- Parse array items up to the closing bracket. -/
def parseItems : Nat → List Char → Option (List Json × List Char)
  | 0, _ => none
  | fuel + 1, cs =>
    match parseVal fuel cs with
    | none => none
    | some (v, r) =>
      match skipWs r with
      | ',' :: r2 =>
        match parseItems fuel r2 with
        | some (vs, r3) => some (v :: vs, r3)
        | none => none
      | ']' :: r2 => some ([v], r2)
      | _ => none

/-- Parse object fields up to the closing brace. -/
def parseFields : Nat → List Char → Option (List (String × Json) × List Char)
  | 0, _ => none
  | fuel + 1, cs =>
    match skipWs cs with
    | '"' :: rest =>
      match parseStrChars rest with
      | none => none
      | some (k, r) =>
        match skipWs r with
        | ':' :: r2 =>
          match parseVal fuel r2 with
          | none => none
          | some (v, r3) =>
            match skipWs r3 with
            | ',' :: r4 =>
              match parseFields fuel r4 with
              | some (fs, r5) => some ((String.mk k, v) :: fs, r5)
              | none => none
            | '\x7d' :: r4 => some ([(String.mk k, v)], r4)
            | _ => none
        | _ => none
    | _ => none

end

/-- `JSON.parse`: parse a whole string as one JSON value (trailing
whitespace only), `none` on a `SyntaxError`. -/
def parseJson (s : String) : Option Json :=
  match parseVal (2 * s.data.length + 2) s.data with
  | some (v, rest) => if skipWs rest = [] then some v else none
  | none => none

/-! ### JSON.stringify -/

/-- Escape one character for a JSON string literal. -/
def escapeChar (c : Char) : String :=
  if c = '"' then "\\\""
  else if c = '\\' then "\\\\"
  else if c = '\n' then "\\n"
  else if c = '\t' then "\\t"
  else if c = '\r' then "\\r"
  else String.mk [c]

/-- Escape a string for a JSON string literal. -/
def escapeStr (s : String) : String :=
  s.data.foldl (fun acc c => acc ++ escapeChar c) ""

mutual

/-- `JSON.stringify` (no indentation, insertion-ordered fields). -/
def stringify : Json → String
  | .null => "null"
  | .bool b => if b then "true" else "false"
  | .num n => toString n
  | .str s => "\"" ++ escapeStr s ++ "\""
  | .arr xs => "[" ++ stringifyItems xs ++ "]"
  | .obj fs => "\x7b" ++ stringifyFields fs ++ "\x7d"

/-- Comma-joined array elements. -/
def stringifyItems : List Json → String
  | [] => ""
  | [x] => stringify x
  | x :: y :: xs => stringify x ++ "," ++ stringifyItems (y :: xs)

/-- Comma-joined object fields. -/
def stringifyFields : List (String × Json) → String
  | [] => ""
  | [(k, v)] => "\"" ++ escapeStr k ++ "\":" ++ stringify v
  | (k, v) :: f :: fs =>
    "\"" ++ escapeStr k ++ "\":" ++ stringify v ++ "," ++ stringifyFields (f :: fs)

end

/-- JavaScript template-literal display of a value (as in backtick
interpolation). -/
def jsDisplay : Json → String
  | .null => "null"
  | .bool b => if b then "true" else "false"
  | .num n => toString n
  | .str s => s
  | .arr _ => ""
  | .obj _ => "[object Object]"

/-! ### Configuration constants (`server.js` top of file) -/

/-- `const SHOW_REASONING = false` (server.js). -/
def SHOW_REASONING : Bool := false

/-! ### The streaming data handler (`server.js`, `response.data.on('data')`)

The Express response object is modelled as explicit state.  `res.write`
after `res.end` does not reach the client (Node raises an asynchronous
`write after end` error and drops the data), so writes on an ended
response leave the visible output unchanged.  The identifier
`reasoningStarted` is never declared anywhere in `server.js`; it is
modelled as `Option Bool`, `none` standing for "undeclared", and a read
while undeclared raises a `ReferenceError` (caught by the handler's
`catch`, which forwards the raw chunk). -/

/-- State of one streamed client response. -/
structure StreamState where
  /-- Frames written to the client so far, in order. -/
  writes : List String
  /-- Has `res.end()` been called. -/
  ended : Bool
  /-- The undeclared global `reasoningStarted`; `none` = undeclared. -/
  reasoningStarted : Option Bool
deriving DecidableEq

/-- Fresh response state at the start of a stream. -/
def initStream : StreamState := ⟨[], false, none⟩

/-- `res.write s`: visible only while the response is not ended. -/
def resWrite (st : StreamState) (s : String) : StreamState :=
  if st.ended then st else { st with writes := st.writes ++ [s] }

/-- `res.end()`. -/
def resEnd (st : StreamState) : StreamState := { st with ended := true }

/-- The outbound termination sentinel frame. -/
def sentinelFrame : String := "data: [DONE]\n\n"

/-- `data.choices?.[0]?.delta` (optional chaining). -/
def getDelta (data : Json) : Option Json :=
  match jsMember data "choices" with
  | none => none
  | some c =>
    match jsIndex0 c with
    | none => none
    | some x => jsMember x "delta"

/-- Set field `k` of an object to `v`, in place if present, appended
otherwise; a no-op on primitives (sloppy-mode assignment). -/
def setKey (j : Json) (k : String) (v : Json) : Json :=
  match j with
  | .obj fields =>
    if (lookupField fields k).isSome then
      .obj (fields.map fun p => if p.1 = k then (p.1, v) else p)
    else
      .obj (fields ++ [(k, v)])
  | _ => j

/-- `delete j[k]` on an object; a no-op on primitives. -/
def delKey (j : Json) (k : String) : Json :=
  match j with
  | .obj fields => .obj (fields.filter fun p => p.1 ≠ k)
  | _ => j

/-- Apply `f` to element `0` of an array-or-object (the write path of
`data.choices[0]`). -/
def updateElem0 (c : Json) (f : Json → Json) : Json :=
  match c with
  | .arr (x :: rest) => .arr (f x :: rest)
  | .obj fields => .obj (fields.map fun p => if p.1 = "0" then (p.1, f p.2) else p)
  | _ => c

/-- Apply `f` to `data.choices[0].delta` (the mutations
`delete ...reasoning_content` and `...content = ...` in the handler). -/
def modifyDelta (data : Json) (f : Json → Json) : Json :=
  match data with
  | .obj fields =>
    .obj (fields.map fun p =>
      if p.1 = "choices" then
        (p.1, updateElem0 p.2 fun x =>
          match x with
          | .obj gs =>
            .obj (gs.map fun q => if q.1 = "delta" then (q.1, f q.2) else q)
          | _ => x)
      else p)
  | _ => data

/-- One invocation of the `response.data.on('data', (chunk) => ...)`
handler of the streaming path (server.js lines 262-291), for one
transport chunk. -/
def dataHandler (showReasoning : Bool) (st : StreamState) (chunkStr : String) :
    StreamState :=
  if strIncludes chunkStr "[DONE]" then
    resEnd (resWrite st sentinelFrame)
  else if jsTrim chunkStr ≠ "" then
    match parseJson chunkStr with
    | none =>
      -- catch: ignore parse errors, send raw if malformed
      resWrite st ("data: " ++ chunkStr ++ "\n\n")
    | some data =>
      match getDelta data with
      | some delta =>
        if jsTruthy delta then
          let content := jsOr (jsMember delta "content") (.str "")
          let reasoning := jsMember delta "reasoning_content"
          if showReasoning && jsTruthyOpt reasoning then
            match st.reasoningStarted with
            | none =>
              -- reading the undeclared `reasoningStarted` raises a
              -- ReferenceError, caught by the same catch: raw forward
              resWrite st ("data: " ++ chunkStr ++ "\n\n")
            | some started =>
              let content2 :=
                if started then reasoning.getD .null
                else .str ("<think>\n" ++ jsDisplay (reasoning.getD .null) ++
                           "\n</think>\n\n" ++ jsDisplay content)
              let st2 := { st with reasoningStarted := some (!started) }
              let data2 := modifyDelta data fun d =>
                setKey d "content" (jsOr (some content2) (.str ""))
              resWrite st2 ("data: " ++ stringify data2 ++ "\n\n")
          else
            let data1 :=
              if jsTruthyOpt reasoning then
                modifyDelta data fun d => delKey d "reasoning_content"
              else data
            let data2 := modifyDelta data1 fun d =>
              setKey d "content" (jsOr (some content) (.str ""))
            resWrite st ("data: " ++ stringify data2 ++ "\n\n")
        else st
      | none => st
  else st

/-- The whole streaming path for one request: every upstream transport
chunk through the data handler in arrival order, then the `end` event's
`res.end()`. -/
def processStream (showReasoning : Bool) (chunks : List String) : StreamState :=
  resEnd (chunks.foldl (dataHandler showReasoning) initStream)

/-- The ordered frames the client receives for an upstream chunk
sequence. -/
def clientFrames (showReasoning : Bool) (chunks : List String) : List String :=
  (processStream showReasoning chunks).writes

/-! ### Request normalization (`server.js` lines 212-242) -/

/-- `const MODEL_MAPPING = ...` (server.js lines 174-182). -/
def modelMapping (m : String) : Option String :=
  if m = "gpt-3.5-turbo" then some "nvidia/llama-3.1-nemotron-ultra-253b-v1"
  else if m = "gpt-4" then some "qwen/qwen3-coder-480b-a35b-instruct"
  else if m = "gpt-4-turbo" then some "moonshotai/kimi-k2-instruct-0905"
  else if m = "gpt-4o" then some "deepseek-ai/deepseek-v3.1"
  else if m = "claude-3-opus" then some "openai/gpt-oss-120b"
  else if m = "claude-3-sonnet" then some "openai/gpt-oss-20b"
  else if m = "gemini-pro" then some "qwen/qwen3-next-80b-a3b-thinking"
  else none

/-- The keyword heuristic of server.js lines 221-228 (reachable only when
`nimModel` is falsy, i.e. the empty string). -/
def fallbackHeuristic (m : String) : String :=
  let ml := jsToLower m
  if strIncludes ml "gpt-4" || strIncludes ml "claude-opus" || strIncludes ml "405b" then
    "meta/llama-3.1-405b-instruct"
  else if strIncludes ml "claude" || strIncludes ml "gemini" || strIncludes ml "70b" then
    "meta/llama-3.1-70b-instruct"
  else
    "meta/llama-3.1-8b-instruct"

/-- Model resolution, server.js lines 219-229:
`let nimModel = MODEL_MAPPING[model] || model; if (!nimModel) ...`.
When `model` is absent (`undefined`), `nimModel` is `undefined`, the guard
is entered and `model.toLowerCase()` raises a `TypeError` (caught by the
route's outer catch, which answers HTTP 500); this is the `.error` case. -/
def resolveModel (model : Option String) : Except Unit String :=
  match model with
  | none => .error ()
  | some m =>
    let nimModel := (modelMapping m).getD m
    if nimModel = "" then .ok (fallbackHeuristic m) else .ok nimModel

/-- `const effectiveMaxTokens = max_tokens === 0 || !max_tokens ? 500 :
Math.min(max_tokens, 9024)` (server.js line 232).  `none` = absent. -/
def effectiveMaxTokens (max_tokens : Option Int) : Int :=
  match max_tokens with
  | none => 500
  | some v => if v = 0 then 500 else min v 9024

/-- The Hugging Face variant (`part_000` line 71):
`max_tokens === 0 || !max_tokens ? 800 : Math.min(max_tokens, 800)`. -/
def effectiveMaxTokensHF (max_tokens : Option Int) : Int :=
  match max_tokens with
  | none => 800
  | some v => if v = 0 then 800 else min v 800

/-- The inbound request fields the embedded handler fragment reads.
`messages` is an arbitrary JSON value (or absent); `model` is a model
name (or absent); `max_tokens` an integer (or absent). -/
structure InboundRequest where
  model : Option String
  messages : Option Json
  max_tokens : Option Int

/-- Outcome of the handler up to (and including) deciding whether to call
upstream: either an immediate HTTP 400, an HTTP 500 from a thrown
`TypeError` during model resolution, or the upstream call with the
resolved model and clamped token budget. -/
inductive HandlerOutcome where
  | badRequest400
  | serverError500
  | upstreamCall (nimModel : String) (maxTokens : Int)
deriving DecidableEq

/-- server.js lines 214-232: the messages guard
(`if (!messages || !Array.isArray(messages)) return res.status(400)...`),
then model resolution, then the token clamp.  No upstream request exists
unless the result is `upstreamCall`. -/
def chatHandlerPhase1 (req : InboundRequest) : HandlerOutcome :=
  if !jsTruthyOpt req.messages || !jsIsArrayOpt req.messages then
    .badRequest400
  else
    match resolveModel req.model with
    | .error _ => .serverError500
    | .ok nimModel => .upstreamCall nimModel (effectiveMaxTokens req.max_tokens)

/-! ### Non-streaming response assembly (`server.js` lines 299-323) -/

/-- Upstream message, as accessed by `choice.message.*`. -/
structure UpstreamMessage where
  role : String
  content : Option String
  reasoning_content : Option String
deriving DecidableEq

/-- One upstream choice. -/
structure UpstreamChoice where
  index : Int
  message : UpstreamMessage
  finish_reason : Option String
deriving DecidableEq

/-- The usage block. -/
structure Usage where
  prompt_tokens : Int
  completion_tokens : Int
  total_tokens : Int
deriving DecidableEq

/-- The parsed upstream non-streaming body, in the shape the assembly code
reads from it. -/
structure UpstreamData where
  choices : List UpstreamChoice
  usage : Option Usage
deriving DecidableEq

/-- Outbound message of the assembled response. -/
structure OutMessage where
  role : String
  content : String
deriving DecidableEq

/-- Outbound choice of the assembled response. -/
structure OutChoice where
  index : Int
  message : OutMessage
  finish_reason : Option String
deriving DecidableEq

/-- The assembled OpenAI-shaped response (the `id` and `created` fields
derive from the wall clock and carry no verified property; they are
omitted from the model). -/
structure OpenAIResponse where
  object : String
  model : String
  choices : List OutChoice
  usage : Usage
deriving DecidableEq

/-- The body of `data.choices.map(choice => ...)`, server.js lines
310-319. -/
def transformChoice (showReasoning : Bool) (choice : UpstreamChoice) : OutChoice :=
  { index := choice.index
    message :=
      { role := choice.message.role
        content :=
          if showReasoning && jsStrTruthy choice.message.reasoning_content then
            "<think>\n" ++ (choice.message.reasoning_content.getD "") ++
              "\n</think>\n\n" ++ jsStrOrEmpty choice.message.content
          else
            jsStrOrEmpty choice.message.content }
    finish_reason := choice.finish_reason }
where
  /-- truthiness of an optional string (`undefined`/`''` are falsy). -/
  jsStrTruthy : Option String → Bool
    | none => false
    | some s => s != ""
  /-- `s || ''`. -/
  jsStrOrEmpty : Option String → String
    | none => ""
    | some s => s

/-- The `openaiResponse` object construction, server.js lines 305-321. -/
def assembleResponse (showReasoning : Bool) (model : String)
    (data : UpstreamData) : OpenAIResponse :=
  { object := "chat.completion"
    model := model
    choices := data.choices.map (transformChoice showReasoning)
    usage := data.usage.getD ⟨0, 0, 0⟩ }

/-- What the specification says each assembled message content is: the
upstream content (empty for null/absent), prefixed with a
`<think>`-wrapped reasoning block when the reasoning-display toggle is
enabled and reasoning is present (non-empty). -/
def contentPerSpec (showReasoning : Bool) (choice : UpstreamChoice) : String :=
  match choice.message.reasoning_content with
  | some r =>
    if showReasoning ∧ r ≠ "" then
      "<think>\n" ++ r ++ "\n</think>\n\n" ++ (choice.message.content.getD "")
    else choice.message.content.getD ""
  | none => choice.message.content.getD ""

/-! ### Decoding the buffered upstream body

The non-streaming path runs `JSON.parse(fullData)` inside the
`response.data.on('end', ...)` callback; that callback runs after the
route handler's `try/catch` frame is gone, so any exception there is an
uncaught exception and no response reaches the client.  Shape deviations
(missing `choices` array, missing `message`) likewise raise a `TypeError`
in `data.choices.map(...)`.  Both are modelled as `none` ("no response is
delivered to the client"). -/

/-- Read a JSON value as a string field. -/
def asString : Json → Option String
  | .str s => some s
  | _ => none

/-- Read a JSON value as an integer field. -/
def asInt : Json → Option Int
  | .num n => some n
  | _ => none

/-- Decode `choice.message`. -/
def decodeMessage (m : Json) : Option UpstreamMessage :=
  match jsMember m "role" with
  | some (.str r) =>
    some ⟨r, (jsMember m "content").bind asString,
          (jsMember m "reasoning_content").bind asString⟩
  | _ => none

/-- Decode one element of `data.choices`. -/
def decodeChoice (x : Json) : Option UpstreamChoice :=
  match jsMember x "message" with
  | some m =>
    (decodeMessage m).map fun mm =>
      ⟨((jsMember x "index").bind asInt).getD 0, mm,
       (jsMember x "finish_reason").bind asString⟩
  | none => none

/-- Decode `data.usage`. -/
def decodeUsage (u : Json) : Option Usage :=
  some ⟨((jsMember u "prompt_tokens").bind asInt).getD 0,
        ((jsMember u "completion_tokens").bind asInt).getD 0,
        ((jsMember u "total_tokens").bind asInt).getD 0⟩

/-- Decode the whole parsed upstream body. -/
def decodeUpstream (j : Json) : Option UpstreamData :=
  match jsMember j "choices" with
  | some (.arr xs) =>
    (xs.mapM decodeChoice).map fun cs => ⟨cs, (jsMember j "usage").bind decodeUsage⟩
  | _ => none

/-- The non-streaming `end` handler (server.js lines 303-323): parse the
buffered body, assemble, respond.  `none` means an exception escaped the
callback and the client got nothing. -/
def nonStreamingEnd (model : String) (fullData : String) : Option OpenAIResponse :=
  match parseJson fullData with
  | none => none
  | some j => (decodeUpstream j).map (assembleResponse SHOW_REASONING model)

/-! ## Theorems -/

/-- C5 counterexample: a request carrying `max_tokens = -5` is forwarded
with a max-tokens value of `-5`, strictly below `1`, in both the NIM
service and the Hugging Face variant — the claim that the forwarded value
is never below 1 is false. -/
theorem claim5_counterexample :
    effectiveMaxTokens (some (-5)) < 1 ∧ effectiveMaxTokensHF (some (-5)) < 1 := by
  decide

/-- C5 (amended): the forwarded max-tokens value never exceeds the
configured ceiling (9024 for the NIM service, 800 for the Hugging Face
variant); and provided the inbound `max_tokens` is not negative, it is
also never below 1 (absent or zero values get the default, positive
values are capped).  A negative inbound value, however, is forwarded
unchanged. -/
theorem claim5_clamp_amended (mt : Option Int) :
    (effectiveMaxTokens mt ≤ 9024 ∧ effectiveMaxTokensHF mt ≤ 800) ∧
    ((∀ v, mt = some v → 0 ≤ v) →
      1 ≤ effectiveMaxTokens mt ∧ 1 ≤ effectiveMaxTokensHF mt) := by
  cases mt with
  | none => refine ⟨⟨?_, ?_⟩, fun _ => ⟨?_, ?_⟩⟩ <;> simp [effectiveMaxTokens, effectiveMaxTokensHF]
  | some v =>
    by_cases h : v = 0
    · subst h
      refine ⟨⟨?_, ?_⟩, fun _ => ⟨?_, ?_⟩⟩ <;> simp [effectiveMaxTokens, effectiveMaxTokensHF]
    · have h9 : effectiveMaxTokens (some v) = min v 9024 := by
        simp [effectiveMaxTokens, h]
      have h8 : effectiveMaxTokensHF (some v) = min v 800 := by
        simp [effectiveMaxTokensHF, h]
      refine ⟨⟨?_, ?_⟩, fun hv => ⟨?_, ?_⟩⟩
      · rw [h9]; exact min_le_right _ _
      · rw [h8]; exact min_le_right _ _
      · rw [h9]
        have h0 : 0 ≤ v := hv v rfl
        have h1 : 1 ≤ v := by omega
        exact le_min h1 (by norm_num)
      · rw [h8]
        have h0 : 0 ≤ v := hv v rfl
        have h1 : 1 ≤ v := by omega
        exact le_min h1 (by norm_num)

/-- Witness for C5 (amended) at `max_tokens = 100`. -/
theorem claim5_clamp_amended_witness :
    1 ≤ effectiveMaxTokens (some 100) ∧ effectiveMaxTokens (some 100) ≤ 9024 ∧
    1 ≤ effectiveMaxTokensHF (some 100) ∧ effectiveMaxTokensHF (some 100) ≤ 800 := by
  have h := claim5_clamp_amended (some 100)
  have hnn : ∀ v : Int, (some (100 : Int)) = some v → 0 ≤ v := by
    intro v hv; cases hv; norm_num
  exact ⟨(h.2 hnn).1, h.1.1, (h.2 hnn).2, h.1.2⟩

/-- C6 counterexample: `"foo-model"` and `"bar-model"` are both outside
the mapping table, yet they resolve to two distinct upstream identifiers
(each is passed through verbatim), so unknown inbound names are not
resolved to a single configured default upstream identifier. -/
theorem claim6_counterexample :
    modelMapping "foo-model" = none ∧ modelMapping "bar-model" = none ∧
    resolveModel (some "foo-model") = .ok "foo-model" ∧
    resolveModel (some "bar-model") = .ok "bar-model" ∧
    ("foo-model" : String) ≠ "bar-model" := by
  refine ⟨rfl, rfl, rfl, rfl, by decide⟩

/-- C6 (amended): an inbound model name missing from the mapping table is
passed through to the upstream unchanged (fail-open), except that the
empty name falls into the keyword heuristic and resolves to
`meta/llama-3.1-8b-instruct`; no unknown model name is rejected with an
error. -/
theorem claim6_passthrough_amended (m : String) (h : modelMapping m = none) :
    resolveModel (some m) = .ok (if m = "" then "meta/llama-3.1-8b-instruct" else m) := by
  by_cases hm : m = ""
  · subst hm; rfl
  · rw [if_neg hm]
    simp only [resolveModel, h, Option.getD_none]
    rw [if_neg hm]

/-- Witness for C6 (amended) at the unknown name `"my-custom-model"`. -/
theorem claim6_passthrough_amended_witness :
    resolveModel (some "my-custom-model") = .ok "my-custom-model" := by
  have h := claim6_passthrough_amended "my-custom-model" (by decide)
  rw [if_neg (by decide)] at h
  exact h

/-- C8: a request whose `messages` field is absent or not an array is
answered with HTTP 400, and the handler never reaches the upstream call
(the outcome is `badRequest400`, not `upstreamCall`). -/
theorem claim8_invalid_messages (req : InboundRequest)
    (h : req.messages = none ∨ jsIsArrayOpt req.messages = false) :
    chatHandlerPhase1 req = .badRequest400 := by
  unfold chatHandlerPhase1
  rcases h with h | h
  · rw [h]; rfl
  · rw [h]; simp

/-- Witness for C8: a request whose `messages` is a string. -/
theorem claim8_invalid_messages_witness :
    chatHandlerPhase1 ⟨some "gpt-4o", some (.str "hi"), none⟩ = .badRequest400 :=
  claim8_invalid_messages _ (Or.inr rfl)

/-- C10: the assembled non-streaming envelope's `model` field is the
client's requested model name (the `model` binding from the request body,
not the resolved `nimModel`), and its `usage` field is the upstream usage
when present and the zeroed usage object otherwise. -/
theorem claim10_envelope (showReasoning : Bool) (model : String)
    (data : UpstreamData) :
    (assembleResponse showReasoning model data).model = model ∧
    (assembleResponse showReasoning model data).usage = data.usage.getD ⟨0, 0, 0⟩ :=
  ⟨rfl, rfl⟩

/-- C7: for a parsed upstream body, the assembled `choices` list has the
same length as the upstream one, the `i`-th assembled choice is the
transform of the `i`-th upstream choice, and its message content is
exactly the upstream content — prefixed with a `<think>`-wrapped
reasoning block when the toggle is enabled and reasoning is present —
and being a `String`, it is never null. -/
theorem claim7_choice_mapping (showReasoning : Bool) (model : String)
    (data : UpstreamData) :
    (assembleResponse showReasoning model data).choices.length = data.choices.length ∧
    ∀ (i : Nat) (choice : UpstreamChoice), data.choices[i]? = some choice →
      (assembleResponse showReasoning model data).choices[i]? =
        some (transformChoice showReasoning choice) ∧
      (transformChoice showReasoning choice).message.content =
        contentPerSpec showReasoning choice := by
  refine ⟨by simp [assembleResponse], ?_⟩
  intro i choice h
  constructor
  · simp [assembleResponse, h]
  · obtain ⟨idx, ⟨role, cont, reas⟩, fin⟩ := choice
    cases reas with
    | none =>
      cases cont <;>
        simp [transformChoice, contentPerSpec, transformChoice.jsStrTruthy,
          transformChoice.jsStrOrEmpty]
    | some r =>
      by_cases hr : r = ""
      · subst hr
        cases cont <;> cases showReasoning <;>
          simp [transformChoice, contentPerSpec, transformChoice.jsStrTruthy,
            transformChoice.jsStrOrEmpty]
      · cases cont <;> cases showReasoning <;>
          simp [transformChoice, contentPerSpec, transformChoice.jsStrTruthy,
            transformChoice.jsStrOrEmpty, hr]

/-- Witness for C7 on a one-choice body with reasoning, toggle enabled. -/
theorem claim7_choice_mapping_witness :
    (assembleResponse true "gpt-4o"
        ⟨[⟨0, ⟨"assistant", some "hi", some "why"⟩, some "stop"⟩], none⟩).choices.length = 1 ∧
    (assembleResponse true "gpt-4o"
        ⟨[⟨0, ⟨"assistant", some "hi", some "why"⟩, some "stop"⟩], none⟩).choices[0]? =
      some (transformChoice true ⟨0, ⟨"assistant", some "hi", some "why"⟩, some "stop"⟩) := by
  have h := claim7_choice_mapping true "gpt-4o"
      ⟨[⟨0, ⟨"assistant", some "hi", some "why"⟩, some "stop"⟩], none⟩
  exact ⟨h.1, (h.2 0 _ rfl).1⟩

/-! ### Helper lemmas about the streaming handler -/

/-- The outbound frame wrapper is injective in its payload. -/
theorem wrap_frame_inj {x y : String}
    (h : "data: " ++ x ++ "\n\n" = "data: " ++ y ++ "\n\n") : x = y := by
  have hd := congrArg String.data h
  simp only [String.data_append, List.append_assoc] at hd
  exact String.ext (List.append_cancel_right (List.append_cancel_left hd))

/-- The sentinel frame is the wrapped sentinel payload. -/
theorem sentinel_eq_wrap : sentinelFrame = "data: " ++ "[DONE]" ++ "\n\n" := rfl

/-- A raw-forwarded chunk that does not contain the sentinel substring
never produces the sentinel frame. -/
theorem raw_frame_ne_sentinel {c : String}
    (hd : strIncludes c "[DONE]" = false) :
    ("data: " ++ c ++ "\n\n") ≠ sentinelFrame := by
  intro h
  rw [sentinel_eq_wrap] at h
  have hc := wrap_frame_inj h
  subst hc
  exact absurd hd (by decide)

/-- Serializing an object never yields the sentinel payload. -/
theorem stringify_obj_ne_done (fs : List (String × Json)) :
    stringify (Json.obj fs) ≠ "[DONE]" := by
  intro h
  have he : stringify (Json.obj fs) = "\x7b" ++ stringifyFields fs ++ "\x7d" := by
    simp [stringify]
  rw [he] at h
  have hd := congrArg String.data h
  simp only [String.data_append] at hd
  simp only [List.singleton_append, List.cons_append] at hd
  injection hd with h1 _
  exact absurd h1 (by decide)

/-- The transformed-frame write never produces the sentinel frame. -/
theorem stringify_frame_ne_sentinel (fs : List (String × Json)) :
    ("data: " ++ stringify (Json.obj fs) ++ "\n\n") ≠ sentinelFrame := by
  intro h
  rw [sentinel_eq_wrap] at h
  exact stringify_obj_ne_done fs (wrap_frame_inj h)

/-- If the optional-chaining delta access succeeds, the parsed chunk is an
object. -/
theorem getDelta_some_obj {data : Json} {d : Json} (h : getDelta data = some d) :
    ∃ fs, data = Json.obj fs := by
  cases data with
  | obj fs => exact ⟨fs, rfl⟩
  | null => simp [getDelta, jsMember] at h
  | bool b => simp [getDelta, jsMember] at h
  | num n => simp [getDelta, jsMember] at h
  | str s => simp [getDelta, jsMember] at h
  | arr xs => simp [getDelta, jsMember] at h

/-- `modifyDelta` preserves objecthood. -/
theorem modifyDelta_obj (fs : List (String × Json)) (f : Json → Json) :
    ∃ gs, modifyDelta (Json.obj fs) f = Json.obj gs :=
  ⟨_, rfl⟩

/-- With the reasoning toggle off, an already-ended response is inert:
later chunks change nothing. -/
theorem dataHandler_false_ended (st : StreamState) (c : String)
    (he : st.ended = true) : dataHandler false st c = st := by
  obtain ⟨w, e, r⟩ := st
  simp only at he
  subst he
  unfold dataHandler
  simp only [Bool.false_and, Bool.false_eq_true, if_false]
  split
  · simp [resWrite, resEnd]
  · split
    · split
      · simp [resWrite]
      · split
        · split
          · simp [resWrite]
          · rfl
        · rfl
    · rfl

/-- A stream whose response has ended stays frozen under any further
chunks. -/
theorem foldl_false_ended (chunks : List String) (st : StreamState)
    (he : st.ended = true) : chunks.foldl (dataHandler false) st = st := by
  induction chunks generalizing st with
  | nil => rfl
  | cons c rest ih =>
    rw [List.foldl_cons, dataHandler_false_ended st c he]
    exact ih st he

/-- A chunk containing the sentinel substring, arriving on a live
response, writes exactly the sentinel frame and ends the response. -/
theorem dataHandler_false_done (st : StreamState) (c : String)
    (he : st.ended = false) (hd : strIncludes c "[DONE]" = true) :
    dataHandler false st c = ⟨st.writes ++ [sentinelFrame], true, st.reasoningStarted⟩ := by
  obtain ⟨w, e, r⟩ := st
  simp only at he
  subst he
  unfold dataHandler
  rw [hd]
  simp [resWrite, resEnd]

/-- A chunk without the sentinel substring, arriving on a live response,
appends zero or more frames, none of which is the sentinel frame, and
leaves the response live and the flag untouched. -/
theorem dataHandler_false_nodone (st : StreamState) (c : String)
    (he : st.ended = false) (hd : strIncludes c "[DONE]" = false) :
    ∃ ws, dataHandler false st c = ⟨st.writes ++ ws, false, st.reasoningStarted⟩ ∧
      sentinelFrame ∉ ws := by
  obtain ⟨w, e, r⟩ := st
  simp only at he
  subst he
  unfold dataHandler
  simp only [hd, Bool.false_and, Bool.false_eq_true, if_false]
  split
  · -- nonempty after trim
    split
    · -- parse failure: raw forward
      refine ⟨["data: " ++ c ++ "\n\n"], by simp [resWrite], ?_⟩
      simp only [List.mem_singleton]
      intro hmem
      exact raw_frame_ne_sentinel hd hmem.symm
    · -- parsed
      next data hp =>
      split
      · -- delta present
        next delta hdelta =>
        split
        · -- delta truthy: transformed write
          obtain ⟨fs, hfs⟩ := getDelta_some_obj hdelta
          subst hfs
          obtain ⟨gs1, hg1⟩ :
              ∃ gs1, (if jsTruthyOpt (jsMember delta "reasoning_content") then
                  modifyDelta (Json.obj fs) fun d => delKey d "reasoning_content"
                else Json.obj fs) = Json.obj gs1 := by
            split
            · exact modifyDelta_obj _ _
            · exact ⟨fs, rfl⟩
          rw [hg1]
          obtain ⟨gs2, hg2⟩ := modifyDelta_obj gs1
              (fun d => setKey d "content"
                (jsOr (some (jsOr (jsMember delta "content") (.str ""))) (.str "")))
          rw [hg2]
          refine ⟨["data: " ++ stringify (Json.obj gs2) ++ "\n\n"], by simp [resWrite], ?_⟩
          simp only [List.mem_singleton]
          intro hmem
          exact stringify_frame_ne_sentinel gs2 hmem.symm
        · exact ⟨[], by simp, by simp⟩
      · exact ⟨[], by simp, by simp⟩
  · exact ⟨[], by simp, by simp⟩

/-- Folding over chunks that contain the sentinel somewhere: the writes
are the pre-sentinel frames (none of them the sentinel), then the
sentinel, and the response has ended. -/
theorem foldl_false_reaches_done (chunks : List String) :
    ∀ st : StreamState, st.ended = false →
      (∃ c ∈ chunks, strIncludes c "[DONE]" = true) →
      ∃ ws, chunks.foldl (dataHandler false) st =
          ⟨st.writes ++ ws ++ [sentinelFrame], true, st.reasoningStarted⟩ ∧
        sentinelFrame ∉ ws := by
  induction chunks with
  | nil => intro st he h; exact absurd h (by simp)
  | cons c rest ih =>
    intro st he h
    by_cases hc : strIncludes c "[DONE]" = true
    · rw [List.foldl_cons, dataHandler_false_done st c he hc,
        foldl_false_ended rest _ rfl]
      exact ⟨[], by simp, by simp⟩
    · have hc' : strIncludes c "[DONE]" = false := by
        simpa using hc
      obtain ⟨ws1, heq, hmem1⟩ := dataHandler_false_nodone st c he hc'
      rw [List.foldl_cons, heq]
      have h' : ∃ c' ∈ rest, strIncludes c' "[DONE]" = true := by
        rcases h with ⟨c', hmem, hinc⟩
        rcases List.mem_cons.mp hmem with rfl | hmem'
        · exact absurd hinc hc
        · exact ⟨c', hmem', hinc⟩
      obtain ⟨ws2, heq2, hmem2⟩ := ih ⟨st.writes ++ ws1, false, st.reasoningStarted⟩ rfl h'
      refine ⟨ws1 ++ ws2, ?_, ?_⟩
      · rw [heq2]; simp
      · simp only [List.mem_append]
        rintro (hmem | hmem)
        · exact hmem1 hmem
        · exact hmem2 hmem

/-! ### Streaming claims -/

/-- C1: a counterexample to fragmentation-transparency.  The same upstream
byte sequence, delivered as one transport chunk versus split into two,
yields different outbound frame sequences: the whole chunk parses as JSON
lacking `choices[0].delta` and is dropped, while each fragment fails
`JSON.parse` and is immediately forwarded raw — the handler keeps no
reassembly buffer and decodes partial frames at once. -/
theorem claim1_fragmentation_dependence :
    (["\x7b\"a\":1\x7d"].foldl (· ++ ·) "" =
      ["\x7b\"a\"", ":1\x7d"].foldl (· ++ ·) "") ∧
    clientFrames false ["\x7b\"a\":1\x7d"] = [] ∧
    clientFrames false ["\x7b\"a\"", ":1\x7d"] =
      ["data: \x7b\"a\"\n\n", "data: :1\x7d\n\n"] := by
  decide

/-- C2 counterexample: an upstream stream that ends without ever sending
the sentinel substring is closed without `data: [DONE]` being written, so
the sentinel is not written exactly once on every streamed request. -/
theorem claim2_counterexample :
    clientFrames false ["hello"] = ["data: hello\n\n"] ∧
    sentinelFrame ∉ clientFrames false ["hello"] := by
  decide

/-- C2 (amended): on every streamed request in which some upstream chunk
contains the sentinel substring, `data: [DONE]` is written to the client
exactly once and is the last frame written; upstream bytes arriving after
it produce no client-visible output. -/
theorem claim2_sentinel_amended (chunks : List String)
    (h : ∃ c ∈ chunks, strIncludes c "[DONE]" = true) :
    ∃ pre, clientFrames false chunks = pre ++ [sentinelFrame] ∧
      sentinelFrame ∉ pre := by
  obtain ⟨ws, heq, hmem⟩ := foldl_false_reaches_done chunks initStream rfl h
  refine ⟨ws, ?_, hmem⟩
  unfold clientFrames processStream
  rw [heq]
  simp [resEnd, initStream]

/-- Witness for C2 (amended): a stream with data before and after the
sentinel chunk. -/
theorem claim2_sentinel_amended_witness :
    ∃ pre, clientFrames false ["hi", "data: [DONE]", "late"] =
        pre ++ [sentinelFrame] ∧ sentinelFrame ∉ pre :=
  claim2_sentinel_amended _ ⟨"data: [DONE]", by decide, by decide⟩

/-- C3: with the reasoning toggle enabled, the first reasoning-bearing
frame is forwarded raw — reading the never-declared `reasoningStarted`
throws a `ReferenceError` that the per-frame catch swallows — and after
the whole stream no flag value exists: there is no per-stream reasoning
state at all, and no `<think>` interleaving is produced. -/
theorem claim3_no_perstream_flag :
    clientFrames true
        ["\x7b\"choices\":[\x7b\"delta\":\x7b\"reasoning_content\":\"abc\",\"content\":\"x\"\x7d\x7d]\x7d"] =
      ["data: \x7b\"choices\":[\x7b\"delta\":\x7b\"reasoning_content\":\"abc\",\"content\":\"x\"\x7d\x7d]\x7d\n\n"] ∧
    (processStream true
        ["\x7b\"choices\":[\x7b\"delta\":\x7b\"reasoning_content\":\"abc\",\"content\":\"x\"\x7d\x7d]\x7d"]).reasoningStarted =
      none := by
  decide

/-- C4: in the streaming path a chunk that fails to decode as JSON is
forwarded raw and processing continues (the single fallback policy, no
crash); but in the non-streaming path an unparseable buffered body
escapes as an uncaught exception inside the `end` callback — no
`MalformedUpstreamBody` error response reaches the client (`none`). -/
theorem claim4_parse_failure_paths (st : StreamState) (c : String) (model : String)
    (hd : strIncludes c "[DONE]" = false) (ht : jsTrim c ≠ "")
    (hp : parseJson c = none) :
    dataHandler false st c = resWrite st ("data: " ++ c ++ "\n\n") ∧
    nonStreamingEnd model c = none := by
  constructor
  · unfold dataHandler
    simp only [hd, Bool.false_eq_true, if_false, if_pos ht, hp]
  · unfold nonStreamingEnd
    rw [hp]

/-- Witness for C4 at the body `"not json"`. -/
theorem claim4_parse_failure_paths_witness :
    dataHandler false initStream "not json" =
      resWrite initStream ("data: " ++ "not json" ++ "\n\n") ∧
    nonStreamingEnd "gpt-4o" "not json" = none :=
  claim4_parse_failure_paths initStream "not json" "gpt-4o" rfl (by decide) rfl

/-- C9 counterexample: a chunk that parses as JSON and has no
`choices[0].delta` but contains the sentinel substring inside a string
value is not dropped: the substring test runs before parsing, so the
handler emits the sentinel frame and terminates the stream. -/
theorem claim9_counterexample :
    parseJson "\x7b\"u\":\"[DONE]\"\x7d" =
      some (.obj [("u", .str "[DONE]")]) ∧
    getDelta (.obj [("u", .str "[DONE]")]) = none ∧
    clientFrames false ["\x7b\"u\":\"[DONE]\"\x7d"] = [sentinelFrame] := by
  refine ⟨rfl, rfl, by decide⟩

/-- C9 (amended): every upstream chunk that does not contain the sentinel
substring, parses as JSON, and lacks `choices[0].delta` produces no
outbound frame at all and leaves the response state unchanged — silently
dropped, not forwarded raw, not an error. -/
theorem claim9_drop_amended (st : StreamState) (c : String) (j : Json)
    (hd : strIncludes c "[DONE]" = false) (hp : parseJson c = some j)
    (hdelta : getDelta j = none) :
    dataHandler false st c = st := by
  unfold dataHandler
  simp only [hd, Bool.false_eq_true, if_false, hp, hdelta]
  split
  · rfl
  · rfl

/-- Witness for C9 (amended): a usage-only event. -/
theorem claim9_drop_amended_witness :
    dataHandler false initStream "\x7b\"usage\":\x7b\x7d\x7d" = initStream :=
  claim9_drop_amended initStream "\x7b\"usage\":\x7b\x7d\x7d"
    (.obj [("usage", .obj [])]) rfl rfl rfl

end NimProxy
